import Mathlib

/-!
Verification of the table grid model of `pptx/table.py`.

The Python module layers proxy objects (`Table`, `_Cell`, `_Row`, `_Column`,
`_CellCollection`, `_RowCollection`, `_ColumnCollection`) over a mutable XML
tree.  We embed the tree shallowly: each XML element becomes a Lean structure,
Python object identity of `a:tc` elements is modelled by an `id` field,
attribute assignment becomes a functional update, and the graphic frame keeps
write counters so that "an assignment was performed" is observable even when
the assigned value equals the old one.  Exceptions become `Except` /
`Option String` results.
-/

set_option autoImplicit false

namespace PPTX

/-- An `a:tc` (table cell) element.  `id` models Python object identity of the
element, which is what `_Cell.__eq__` compares with `is`.  The four margins
are the `marL`/`marR`/`marT`/`marB` attributes; `none` is the unset state
(Python `None`). -/
structure Tc where
  id : Nat
  marL : Option Int := none
  marR : Option Int := none
  marT : Option Int := none
  marB : Option Int := none
deriving DecidableEq, Repr

/-- An `a:tr` (table row) element: its height attribute `h` and its cell
elements `tc_lst`, in document order. -/
structure Tr where
  h : Int
  tc_lst : List Tc
deriving DecidableEq, Repr

/-- An `a:gridCol` element: its width attribute `w`. -/
structure GridCol where
  w : Int
deriving DecidableEq, Repr

/-- An `a:tbl` element: rows, grid columns and the six boolean style flags
read and written by the `Table` pass-through properties. -/
structure Tbl where
  tr_lst : List Tr
  gridCol_lst : List GridCol
  firstCol : Bool := false
  firstRow : Bool := false
  lastCol : Bool := false
  lastRow : Bool := false
  bandRow : Bool := false
  bandCol : Bool := false
deriving DecidableEq, Repr

/-- The owning graphic-frame shape.  `height`/`width` are its current
dimension attributes; `heightWrites`/`widthWrites` count how many times each
attribute has been assigned, so that unconditional writes are observable in
the functional embedding. -/
structure GraphicFrame where
  height : Int
  width : Int
  heightWrites : Nat := 0
  widthWrites : Nat := 0
deriving DecidableEq, Repr

/-- The mutable state reachable from a `Table` proxy: the `a:tbl` element and
the owning graphic frame. -/
structure TableState where
  tbl : Tbl
  graphic_frame : GraphicFrame
deriving DecidableEq, Repr

/-- Replace the element at index `i` of `l` by `f` of it; out-of-range `i`
leaves the list unchanged.  Models in-place mutation of one element of an XML
child list. -/
def listModify {α : Type} (l : List α) (i : Nat) (f : α → α) : List α :=
  match l, i with
  | [], _ => []
  | a :: t, 0 => f a :: t
  | a :: t, Nat.succ n => a :: listModify t n f

/-- Zero-based list indexing, `none` when out of range.  Models Python's
`lst[i]` for a known-nonnegative index. -/
def listNth {α : Type} : List α → Nat → Option α
  | [], _ => none
  | a :: _, 0 => some a
  | _ :: t, Nat.succ n => listNth t n

/-- `Table.notify_height_changed`: recompute the table height as the sum of
the row heights and assign it to the graphic frame's `height`. -/
def Table.notify_height_changed (s : TableState) : TableState :=
  { s with graphic_frame :=
      { s.graphic_frame with
          height := (s.tbl.tr_lst.map Tr.h).sum
          heightWrites := s.graphic_frame.heightWrites + 1 } }

/-- `Table.notify_width_changed`: recompute the table width as the sum of the
column widths and assign it to the graphic frame's `width`. -/
def Table.notify_width_changed (s : TableState) : TableState :=
  { s with graphic_frame :=
      { s.graphic_frame with
          width := (s.tbl.gridCol_lst.map GridCol.w).sum
          widthWrites := s.graphic_frame.widthWrites + 1 } }

/-- `_RowCollection.notify_height_changed`: pass along to the parent table. -/
def RowCollection.notify_height_changed (s : TableState) : TableState :=
  Table.notify_height_changed s

/-- `_ColumnCollection.notify_width_changed`: pass along to the parent
table. -/
def ColumnCollection.notify_width_changed (s : TableState) : TableState :=
  Table.notify_width_changed s

/-- The `_Row.height` setter for the row proxying `tr_lst[i]`: assign
`self._tr.h = height`, then call the parent collection's
`notify_height_changed`. -/
def Row.height_set (s : TableState) (i : Nat) (height : Int) : TableState :=
  let trs := listModify s.tbl.tr_lst i (fun tr => { tr with h := height })
  RowCollection.notify_height_changed { s with tbl := { s.tbl with tr_lst := trs } }

/-- The `_Column.width` setter for the column proxying `gridCol_lst[j]`:
assign `self._gridCol.w = width`, then call the parent collection's
`notify_width_changed`. -/
def Column.width_set (s : TableState) (j : Nat) (width : Int) : TableState :=
  let cols := listModify s.tbl.gridCol_lst j (fun col => { col with w := width })
  ColumnCollection.notify_width_changed { s with tbl := { s.tbl with gridCol_lst := cols } }

/-- A Python value that can be assigned to a margin property: an integer
(`Length` is an `int` subclass, so integer-valued lengths are ints), `None`,
or a non-integer value such as a float or a string, carried with the text
`str()` would render it as. -/
inductive PyVal where
  | intVal : Int → PyVal
  | noneVal : PyVal
  | floatVal : String → PyVal
  | strVal : String → PyVal
deriving DecidableEq, Repr

/-- Modelled from the spec: `pptx.compat.is_integer` (not under `src/`) ---
true exactly when the value is an integer. -/
def is_integer : PyVal → Bool
  | PyVal.intVal _ => true
  | _ => false

/-- Rendering of a value by Python's `%s` formatting (via `str()`). -/
def pyStr : PyVal → String
  | PyVal.intVal n => toString n
  | PyVal.noneVal => "None"
  | PyVal.floatVal t => t
  | PyVal.strVal t => t

/-- The message of the `TypeError` raised by `_validate_margin_value`:
`"margin value must be integer or None, got '%s'" % margin_value`. -/
def marginErrorMsg (margin_value : PyVal) : String :=
  "margin value must be integer or None, got \x27" ++ pyStr margin_value ++ "\x27"

/-- `_Cell._validate_margin_value`: returns the raised `TypeError`'s message
when the value is neither an integer nor `None`, and `none` when no error is
raised. -/
def validate_margin_value (margin_value : PyVal) : Option String :=
  if !(is_integer margin_value) && !(margin_value == PyVal.noneVal) then
    some (marginErrorMsg margin_value)
  else
    none

/-- Store a validated margin value into the element attribute: an integer is
stored, `None` clears the attribute.  (After validation no other case can
occur; the catch-all is arbitrary and unreachable.) -/
def marginStore : PyVal → Option Int
  | PyVal.intVal n => some n
  | _ => none

/-- The `_Cell.margin_left` setter on the underlying `a:tc` element:
validate, then assign `self._tc.marL = margin_left`.  A raised `TypeError`
is an `Except.error` carrying its message, and means the assignment never
executed. -/
def Cell.margin_left_set (tc : Tc) (margin_left : PyVal) : Except String Tc :=
  match validate_margin_value margin_left with
  | some msg => Except.error msg
  | none => Except.ok { tc with marL := marginStore margin_left }

/-- The `_Cell.margin_right` setter: validate, then assign `marR`. -/
def Cell.margin_right_set (tc : Tc) (margin_right : PyVal) : Except String Tc :=
  match validate_margin_value margin_right with
  | some msg => Except.error msg
  | none => Except.ok { tc with marR := marginStore margin_right }

/-- The `_Cell.margin_top` setter: validate, then assign `marT`. -/
def Cell.margin_top_set (tc : Tc) (margin_top : PyVal) : Except String Tc :=
  match validate_margin_value margin_top with
  | some msg => Except.error msg
  | none => Except.ok { tc with marT := marginStore margin_top }

/-- The `_Cell.margin_bottom` setter: validate, then assign `marB`. -/
def Cell.margin_bottom_set (tc : Tc) (margin_bottom : PyVal) : Except String Tc :=
  match validate_margin_value margin_bottom with
  | some msg => Except.error msg
  | none => Except.ok { tc with marB := marginStore margin_bottom }

/-- A `_Cell` proxy: holds a reference to its `a:tc` element (`self._tc`).
Distinct proxy instances may hold the same element; element identity is the
`id` field of `Tc`. -/
structure CellProxy where
  tc : Tc
deriving DecidableEq, Repr

/-- A `_Row` proxy: holds a reference to its `a:tr` element. -/
structure RowProxy where
  tr : Tr
deriving DecidableEq, Repr

/-- A `_Column` proxy: holds a reference to its `a:gridCol` element. -/
structure ColumnProxy where
  gridCol : GridCol
deriving DecidableEq, Repr

/-- A Python value appearing as the right operand of `==`/`!=` on a cell:
either a `_Cell` instance or some value of another type. -/
inductive PyOperand where
  | cellOp : CellProxy → PyOperand
  | intOp : Int → PyOperand
  | strOp : String → PyOperand
  | noneOp : PyOperand
deriving DecidableEq, Repr

/-- `_Cell.__eq__`: `False` unless `other` is a `_Cell`, else
`self._tc is other._tc` (element identity). -/
def Cell.eq (c : CellProxy) (other : PyOperand) : Bool :=
  match other with
  | PyOperand.cellOp o => c.tc.id == o.tc.id
  | _ => false

/-- `_Cell.__ne__`: `True` unless `other` is a `_Cell`, else
`self._tc is not other._tc`. -/
def Cell.ne (c : CellProxy) (other : PyOperand) : Bool :=
  match other with
  | PyOperand.cellOp o => !(c.tc.id == o.tc.id)
  | _ => true

/-- `_CellCollection.__len__`: `len(self._tr.tc_lst)`. -/
def CellCollection.len (tr : Tr) : Nat :=
  tr.tc_lst.length

/-- `_CellCollection.__getitem__`: raise `IndexError` with the index in the
message when `idx < 0 or idx >= len(self._tr.tc_lst)`, else return
`_Cell(self._tr.tc_lst[idx], self)`. -/
def CellCollection.getitem (tr : Tr) (idx : Int) : Except String CellProxy :=
  if idx < 0 ∨ (tr.tc_lst.length : Int) ≤ idx then
    Except.error ("cell index [" ++ toString idx ++ "] out of range")
  else
    match listNth tr.tc_lst idx.toNat with
    | some tc => Except.ok { tc := tc }
    | none => Except.error ("cell index [" ++ toString idx ++ "] out of range")

/-- `_CellCollection.__iter__`: `(_Cell(tc, self) for tc in self._tr.tc_lst)`
— a fresh generator over the cell elements, in document order.  Each call to
`__iter__` yields this whole sequence, so iteration is restartable. -/
def CellCollection.iter (tr : Tr) : List CellProxy :=
  tr.tc_lst.map (fun tc => { tc := tc })

/-- `_ColumnCollection.__len__`: `len(self._tbl.tblGrid.gridCol_lst)`. -/
def ColumnCollection.len (tbl : Tbl) : Nat :=
  tbl.gridCol_lst.length

/-- `_ColumnCollection.__getitem__`: raise `IndexError` with the index in the
message when out of range, else return `_Column(gridCol_lst[idx], self)`. -/
def ColumnCollection.getitem (tbl : Tbl) (idx : Int) : Except String ColumnProxy :=
  if idx < 0 ∨ (tbl.gridCol_lst.length : Int) ≤ idx then
    Except.error ("column index [" ++ toString idx ++ "] out of range")
  else
    match listNth tbl.gridCol_lst idx.toNat with
    | some col => Except.ok { gridCol := col }
    | none => Except.error ("column index [" ++ toString idx ++ "] out of range")

/-- `_RowCollection.__len__`: `len(self._tbl.tr_lst)`. -/
def RowCollection.len (tbl : Tbl) : Nat :=
  tbl.tr_lst.length

/-- `_RowCollection.__getitem__`: raise `IndexError` with the index in the
message when `idx < 0 or idx >= len(self)`, else return
`_Row(self._tbl.tr_lst[idx], self)`. -/
def RowCollection.getitem (tbl : Tbl) (idx : Int) : Except String RowProxy :=
  if idx < 0 ∨ (tbl.tr_lst.length : Int) ≤ idx then
    Except.error ("row index [" ++ toString idx ++ "] out of range")
  else
    match listNth tbl.tr_lst idx.toNat with
    | some tr => Except.ok { tr := tr }
    | none => Except.error ("row index [" ++ toString idx ++ "] out of range")

/-- Python's sequence-iteration protocol: a class with `__getitem__` but no
`__iter__` is iterated by calling `__getitem__(0)`, `__getitem__(1)`, ... and
collecting results until `IndexError` is raised.  `fuel` bounds the number of
calls; `i` is the next index to try. -/
def seqIterFrom {α : Type} (get : Int → Except String α) : Nat → Nat → List α
  | 0, _ => []
  | Nat.succ fuel, i =>
    match get (i : Int) with
    | Except.ok a => a :: seqIterFrom get fuel (i + 1)
    | Except.error _ => []

/-- Sequence-protocol iteration starting at index 0. -/
def seqIter {α : Type} (get : Int → Except String α) (fuel : Nat) : List α :=
  seqIterFrom get fuel 0

/-- Iterating a `_RowCollection` (which defines no `__iter__`): the sequence
protocol over its `__getitem__`, which stops at the first `IndexError`,
raised at index `len`.  One extra unit of fuel makes that call. -/
def RowCollection.iter (tbl : Tbl) : List RowProxy :=
  seqIter (RowCollection.getitem tbl) (RowCollection.len tbl + 1)

/-- Iterating a `_ColumnCollection` (no `__iter__`): sequence protocol over
its `__getitem__`. -/
def ColumnCollection.iter (tbl : Tbl) : List ColumnProxy :=
  seqIter (ColumnCollection.getitem tbl) (ColumnCollection.len tbl + 1)

/-- Modelled from the spec: `CT_Table.tc(row_idx, col_idx)` (the Grid
Accessor's merge-aware coordinate resolution, defined in the oxml layer, not
under `src/`) returns the `a:tc` element occupying the coordinate; a covered
coordinate of a merged span holds (resolves to) the span's origin element,
so in this model the same element (same `id`) simply occupies every covered
position.  Out-of-range coordinates fail. -/
def Tbl.tc (tbl : Tbl) (row_idx col_idx : Nat) : Option Tc :=
  match listNth tbl.tr_lst row_idx with
  | none => none
  | some tr => listNth tr.tc_lst col_idx

/-- `Table.cell(row_idx, col_idx)`: `_Cell(self._tbl.tc(row_idx, col_idx),
self)` — a fresh proxy for the resolved element. -/
def Table.cell (s : TableState) (row_idx col_idx : Nat) : Option CellProxy :=
  match Tbl.tc s.tbl row_idx col_idx with
  | none => none
  | some tc => some { tc := tc }

/-- Identity of a collection proxy object, used to observe caching: each
construction yields a fresh identity. -/
structure CollectionObj where
  objId : Nat
deriving DecidableEq, Repr

/-- Modelled from the spec: `pptx.util.lazyproperty` (not under `src/`)
computes the property value on first access, caches it on the instance, and
returns the cached object unchanged on every later access.  A `Table`
instance therefore carries optional cached `rows`/`columns` collection
objects, plus a counter allocating fresh object identities. -/
structure CachedTable where
  state : TableState
  rowsCache : Option CollectionObj := none
  columnsCache : Option CollectionObj := none
  nextId : Nat := 0
deriving DecidableEq, Repr

/-- `Table.rows` under `@lazyproperty`: return the cached `_RowCollection` if
present, else construct one (a fresh object), cache and return it. -/
def Table.rows_access (t : CachedTable) : CollectionObj × CachedTable :=
  match t.rowsCache with
  | some c => (c, t)
  | none =>
    let c : CollectionObj := { objId := t.nextId }
    (c, { t with rowsCache := some c, nextId := t.nextId + 1 })

/-- `Table.columns` under `@lazyproperty`: same caching for the
`_ColumnCollection`. -/
def Table.columns_access (t : CachedTable) : CollectionObj × CachedTable :=
  match t.columnsCache with
  | some c => (c, t)
  | none =>
    let c : CollectionObj := { objId := t.nextId }
    (c, { t with columnsCache := some c, nextId := t.nextId + 1 })

/-- One dimension-setting assignment: `rows[i].height = v` or
`columns[j].width = v`. -/
inductive TableOp where
  | setH : Nat → Int → TableOp
  | setW : Nat → Int → TableOp
deriving DecidableEq, Repr

/-- Execute one assignment through the proxy setters. -/
def applyOp (s : TableState) : TableOp → TableState
  | TableOp.setH i v => Row.height_set s i v
  | TableOp.setW j v => Column.width_set s j v

/-- Execute a sequence of assignments in order. -/
def applyOps (s : TableState) (ops : List TableOp) : TableState :=
  ops.foldl applyOp s

/-! ### Helper lemmas about `listNth`, `listModify` and protocol iteration -/

theorem listNth_eq_none_iff {α : Type} :
    ∀ (l : List α) (n : Nat), listNth l n = none ↔ l.length ≤ n := by
  intro l
  induction l with
  | nil => intro n; simp [listNth]
  | cons a t ih =>
    intro n
    cases n with
    | zero => simp [listNth]
    | succ m => simp [listNth, ih m, Nat.succ_le_succ_iff]

theorem listNth_isSome_of_lt {α : Type} (l : List α) (n : Nat) (h : n < l.length) :
    ∃ a, listNth l n = some a := by
  cases hn : listNth l n with
  | none => rw [listNth_eq_none_iff] at hn; omega
  | some a => exact ⟨a, rfl⟩

theorem listNth_length_of_some {α : Type} :
    ∀ (l : List α) (n : Nat) (a : α), listNth l n = some a → n < l.length := by
  intro l n a h
  by_contra hn
  rw [Nat.not_lt] at hn
  rw [(listNth_eq_none_iff l n).mpr hn] at h
  exact Option.noConfusion h

theorem listModify_length {α : Type} :
    ∀ (l : List α) (i : Nat) (f : α → α), (listModify l i f).length = l.length := by
  intro l
  induction l with
  | nil => intro i f; rfl
  | cons a t ih =>
    intro i f
    cases i with
    | zero => rfl
    | succ n => simpa [listModify] using ih n f

theorem listNth_listModify_self {α : Type} :
    ∀ (l : List α) (i : Nat) (f : α → α),
      listNth (listModify l i f) i = (listNth l i).map f := by
  intro l
  induction l with
  | nil => intro i f; rfl
  | cons a t ih =>
    intro i f
    cases i with
    | zero => rfl
    | succ n => simpa [listModify, listNth] using ih n f

theorem listNth_listModify_other {α : Type} :
    ∀ (l : List α) (i j : Nat) (f : α → α), j ≠ i →
      listNth (listModify l i f) j = listNth l j := by
  intro l
  induction l with
  | nil => intro i j f _; rfl
  | cons a t ih =>
    intro i j f hne
    cases i with
    | zero =>
      cases j with
      | zero => exact absurd rfl hne
      | succ m => rfl
    | succ n =>
      cases j with
      | zero => rfl
      | succ m =>
        simpa [listModify, listNth] using ih n m f (fun hc => hne (by rw [hc]))

theorem listNth_drop {α : Type} :
    ∀ (l : List α) (i : Nat) (a : α), listNth l i = some a →
      l.drop i = a :: l.drop (i + 1) := by
  intro l
  induction l with
  | nil => intro i a h; exact Option.noConfusion h
  | cons b t ih =>
    intro i a h
    cases i with
    | zero =>
      cases h
      simp
    | succ n =>
      simpa using ih n a h

theorem listNth_map {α β : Type} (f : α → β) :
    ∀ (l : List α) (n : Nat), listNth (l.map f) n = (listNth l n).map f := by
  intro l
  induction l with
  | nil => intro n; rfl
  | cons a t ih =>
    intro n
    cases n with
    | zero => rfl
    | succ m => simpa [listNth] using ih m

/-- Sequence-protocol iteration over a `__getitem__` that behaves like a list
`l` viewed through `mk` yields exactly `(l.drop i).map mk`, provided the fuel
suffices to reach the terminating `IndexError`. -/
theorem seqIterFrom_eq_map {α β : Type} (l : List α) (mk : α → β)
    (get : Int → Except String β)
    (hok : ∀ (i : Nat) (a : α), listNth l i = some a →
      get (i : Int) = Except.ok (mk a))
    (herr : ∀ i : Nat, l.length ≤ i → ∃ e, get (i : Int) = Except.error e) :
    ∀ (fuel i : Nat), l.length < fuel + i →
      seqIterFrom get fuel i = (l.drop i).map mk := by
  intro fuel
  induction fuel with
  | zero =>
    intro i hfi
    have : l.length ≤ i := by omega
    rw [List.drop_eq_nil_of_le this]
    rfl
  | succ n ih =>
    intro i hfi
    by_cases hi : i < l.length
    · obtain ⟨a, ha⟩ := listNth_isSome_of_lt l i hi
      rw [seqIterFrom, hok i a ha, ih (i + 1) (by omega), listNth_drop l i a ha]
      rfl
    · have hle : l.length ≤ i := by omega
      obtain ⟨e, he⟩ := herr i hle
      rw [seqIterFrom, he, List.drop_eq_nil_of_le hle]
      rfl

theorem cellGetitem_err (tr : Tr) (idx : Int)
    (h : idx < 0 ∨ (tr.tc_lst.length : Int) ≤ idx) :
    CellCollection.getitem tr idx
      = Except.error ("cell index [" ++ toString idx ++ "] out of range") := by
  unfold CellCollection.getitem
  rw [if_pos h]

theorem cellGetitem_ok (tr : Tr) (idx : Int) (tc : Tc)
    (h0 : 0 ≤ idx) (h : listNth tr.tc_lst idx.toNat = some tc) :
    CellCollection.getitem tr idx = Except.ok { tc := tc } := by
  have hn := listNth_length_of_some _ _ _ h
  unfold CellCollection.getitem
  rw [if_neg (by omega), h]

theorem cellGetitem_err_iff (tr : Tr) (idx : Int) :
    (∃ e, CellCollection.getitem tr idx = Except.error e)
      ↔ (idx < 0 ∨ (tr.tc_lst.length : Int) ≤ idx) := by
  constructor
  · rintro ⟨e, he⟩
    by_contra hc
    rw [not_or, Int.not_lt, Int.not_le] at hc
    obtain ⟨tc, htc⟩ := listNth_isSome_of_lt tr.tc_lst idx.toNat (by omega)
    rw [cellGetitem_ok tr idx tc hc.1 htc] at he
    exact Except.noConfusion he
  · intro h
    exact ⟨_, cellGetitem_err tr idx h⟩

theorem colGetitem_err (tbl : Tbl) (idx : Int)
    (h : idx < 0 ∨ (tbl.gridCol_lst.length : Int) ≤ idx) :
    ColumnCollection.getitem tbl idx
      = Except.error ("column index [" ++ toString idx ++ "] out of range") := by
  unfold ColumnCollection.getitem
  rw [if_pos h]

theorem colGetitem_ok (tbl : Tbl) (idx : Int) (col : GridCol)
    (h0 : 0 ≤ idx) (h : listNth tbl.gridCol_lst idx.toNat = some col) :
    ColumnCollection.getitem tbl idx = Except.ok { gridCol := col } := by
  have hn := listNth_length_of_some _ _ _ h
  unfold ColumnCollection.getitem
  rw [if_neg (by omega), h]

theorem colGetitem_err_iff (tbl : Tbl) (idx : Int) :
    (∃ e, ColumnCollection.getitem tbl idx = Except.error e)
      ↔ (idx < 0 ∨ (tbl.gridCol_lst.length : Int) ≤ idx) := by
  constructor
  · rintro ⟨e, he⟩
    by_contra hc
    rw [not_or, Int.not_lt, Int.not_le] at hc
    obtain ⟨col, hcol⟩ := listNth_isSome_of_lt tbl.gridCol_lst idx.toNat (by omega)
    rw [colGetitem_ok tbl idx col hc.1 hcol] at he
    exact Except.noConfusion he
  · intro h
    exact ⟨_, colGetitem_err tbl idx h⟩

theorem rowGetitem_err (tbl : Tbl) (idx : Int)
    (h : idx < 0 ∨ (tbl.tr_lst.length : Int) ≤ idx) :
    RowCollection.getitem tbl idx
      = Except.error ("row index [" ++ toString idx ++ "] out of range") := by
  unfold RowCollection.getitem
  rw [if_pos h]

theorem rowGetitem_ok (tbl : Tbl) (idx : Int) (tr : Tr)
    (h0 : 0 ≤ idx) (h : listNth tbl.tr_lst idx.toNat = some tr) :
    RowCollection.getitem tbl idx = Except.ok { tr := tr } := by
  have hn := listNth_length_of_some _ _ _ h
  unfold RowCollection.getitem
  rw [if_neg (by omega), h]

theorem rowGetitem_err_iff (tbl : Tbl) (idx : Int) :
    (∃ e, RowCollection.getitem tbl idx = Except.error e)
      ↔ (idx < 0 ∨ (tbl.tr_lst.length : Int) ≤ idx) := by
  constructor
  · rintro ⟨e, he⟩
    by_contra hc
    rw [not_or, Int.not_lt, Int.not_le] at hc
    obtain ⟨tr, htr⟩ := listNth_isSome_of_lt tbl.tr_lst idx.toNat (by omega)
    rw [rowGetitem_ok tbl idx tr hc.1 htr] at he
    exact Except.noConfusion he
  · intro h
    exact ⟨_, rowGetitem_err tbl idx h⟩

theorem rowCollection_iter_eq (tbl : Tbl) :
    RowCollection.iter tbl = tbl.tr_lst.map (fun tr => { tr := tr }) := by
  unfold RowCollection.iter seqIter
  have hlen : tbl.tr_lst.length < (RowCollection.len tbl + 1) + 0 := by
    unfold RowCollection.len
    omega
  rw [seqIterFrom_eq_map tbl.tr_lst (fun tr => { tr := tr })
      (RowCollection.getitem tbl) ?_ ?_ (RowCollection.len tbl + 1) 0 hlen,
    List.drop_zero]
  · intro i a ha
    exact rowGetitem_ok tbl (i : Int) a (by omega) (by simpa using ha)
  · intro i hi
    exact ⟨_, rowGetitem_err tbl (i : Int) (Or.inr (by omega))⟩

theorem colCollection_iter_eq (tbl : Tbl) :
    ColumnCollection.iter tbl = tbl.gridCol_lst.map (fun col => { gridCol := col }) := by
  unfold ColumnCollection.iter seqIter
  have hlen : tbl.gridCol_lst.length < (ColumnCollection.len tbl + 1) + 0 := by
    unfold ColumnCollection.len
    omega
  rw [seqIterFrom_eq_map tbl.gridCol_lst (fun col => { gridCol := col })
      (ColumnCollection.getitem tbl) ?_ ?_ (ColumnCollection.len tbl + 1) 0 hlen,
    List.drop_zero]
  · intro i a ha
    exact colGetitem_ok tbl (i : Int) a (by omega) (by simpa using ha)
  · intro i hi
    exact ⟨_, colGetitem_err tbl (i : Int) (Or.inr (by omega))⟩

/-! ### Concrete example: a 2-row by 3-column table -/

/-- A concrete `a:tc` element with identity `n` and no explicit margins. -/
def exTc (n : Nat) : Tc := { id := n }

/-- First example row: height 1, three cells. -/
def exRow1 : Tr := { h := 1, tc_lst := [exTc 0, exTc 1, exTc 2] }

/-- Second example row: height 2, three cells. -/
def exRow2 : Tr := { h := 2, tc_lst := [exTc 3, exTc 4, exTc 5] }

/-- Example 2×3 `a:tbl` element. -/
def exTbl : Tbl :=
  { tr_lst := [exRow1, exRow2], gridCol_lst := [{ w := 3 }, { w := 4 }, { w := 5 }] }

/-- Example table state with its graphic frame. -/
def exState : TableState :=
  { tbl := exTbl, graphic_frame := { height := 0, width := 0 } }

/-- Example table instance with empty lazy-property caches. -/
def exCached : CachedTable := { state := exState }

/-! ### The claims -/

/-- C4: for each of the three collections, `[i]` raises an `IndexError`
naming `i` exactly when `i < 0` or `i ≥ length` (so negative-from-end
indexing is never supported), and for in-range `i` it returns the proxy for
the `i`-th underlying element. -/
theorem collections_getitem_bounds (tr : Tr) (tbl : Tbl) (idx : Int) :
    ((∃ e, CellCollection.getitem tr idx = Except.error e)
        ↔ (idx < 0 ∨ (CellCollection.len tr : Int) ≤ idx))
    ∧ ((idx < 0 ∨ (CellCollection.len tr : Int) ≤ idx) →
        CellCollection.getitem tr idx
          = Except.error ("cell index [" ++ toString idx ++ "] out of range"))
    ∧ (∀ tc, 0 ≤ idx → listNth tr.tc_lst idx.toNat = some tc →
        CellCollection.getitem tr idx = Except.ok { tc := tc })
    ∧ ((∃ e, ColumnCollection.getitem tbl idx = Except.error e)
        ↔ (idx < 0 ∨ (ColumnCollection.len tbl : Int) ≤ idx))
    ∧ ((idx < 0 ∨ (ColumnCollection.len tbl : Int) ≤ idx) →
        ColumnCollection.getitem tbl idx
          = Except.error ("column index [" ++ toString idx ++ "] out of range"))
    ∧ (∀ col, 0 ≤ idx → listNth tbl.gridCol_lst idx.toNat = some col →
        ColumnCollection.getitem tbl idx = Except.ok { gridCol := col })
    ∧ ((∃ e, RowCollection.getitem tbl idx = Except.error e)
        ↔ (idx < 0 ∨ (RowCollection.len tbl : Int) ≤ idx))
    ∧ ((idx < 0 ∨ (RowCollection.len tbl : Int) ≤ idx) →
        RowCollection.getitem tbl idx
          = Except.error ("row index [" ++ toString idx ++ "] out of range"))
    ∧ (∀ trr, 0 ≤ idx → listNth tbl.tr_lst idx.toNat = some trr →
        RowCollection.getitem tbl idx = Except.ok { tr := trr }) := by
  refine ⟨cellGetitem_err_iff tr idx, cellGetitem_err tr idx,
    fun tc h0 h => cellGetitem_ok tr idx tc h0 h,
    colGetitem_err_iff tbl idx, colGetitem_err tbl idx,
    fun col h0 h => colGetitem_ok tbl idx col h0 h,
    rowGetitem_err_iff tbl idx, rowGetitem_err tbl idx,
    fun trr h0 h => rowGetitem_ok tbl idx trr h0 h⟩

/-- Witness for C4 at the 2×3 example: index 3 is rejected with its value in
the message, index 0 returns the first cell's proxy, and index -1 on rows is
rejected. -/
theorem collections_getitem_bounds_witness :
    CellCollection.getitem exRow1 3
      = Except.error ("cell index [" ++ toString (3 : Int) ++ "] out of range")
    ∧ CellCollection.getitem exRow1 0 = Except.ok { tc := exTc 0 }
    ∧ RowCollection.getitem exTbl (-1)
      = Except.error ("row index [" ++ toString (-1 : Int) ++ "] out of range") := by
  refine ⟨(collections_getitem_bounds exRow1 exTbl 3).2.1 (by decide),
    (collections_getitem_bounds exRow1 exTbl 0).2.2.1 (exTc 0) (by decide) (by decide),
    (collections_getitem_bounds exRow1 exTbl (-1)).2.2.2.2.2.2.2.1 (by decide)⟩

/-- C8: iterating each collection yields exactly one proxy per underlying
element, in sequence order (so exactly length-many, and finite); because the
sequence is recomputed from the unchanged underlying state on each call to
the iteration protocol, a new iteration yields the full sequence again. -/
theorem collections_iter_spec (tr : Tr) (tbl : Tbl) :
    CellCollection.iter tr = tr.tc_lst.map (fun tc => { tc := tc })
    ∧ (CellCollection.iter tr).length = CellCollection.len tr
    ∧ RowCollection.iter tbl = tbl.tr_lst.map (fun t => { tr := t })
    ∧ (RowCollection.iter tbl).length = RowCollection.len tbl
    ∧ ColumnCollection.iter tbl = tbl.gridCol_lst.map (fun c => { gridCol := c })
    ∧ (ColumnCollection.iter tbl).length = ColumnCollection.len tbl := by
  refine ⟨rfl, by simp [CellCollection.iter, CellCollection.len],
    rowCollection_iter_eq tbl, ?_, colCollection_iter_eq tbl, ?_⟩
  · rw [rowCollection_iter_eq tbl]
    simp [RowCollection.len]
  · rw [colCollection_iter_eq tbl]
    simp [ColumnCollection.len]

/-- C1: immediately after `rows[i].height = h` returns, the owning graphic
frame's height equals the sum of the heights of all rows, for every table,
valid row index `i` and integer `h`; the row collection's
`notify_height_changed` is exactly the table's recompute, so the aggregate is
consistent when the synchronous setter call chain returns. -/
theorem row_height_set_aggregate (s : TableState) (i : Nat) (hv : Int)
    (hi : i < s.tbl.tr_lst.length) :
    (Row.height_set s i hv).graphic_frame.height
      = ((Row.height_set s i hv).tbl.tr_lst.map Tr.h).sum
    ∧ RowCollection.notify_height_changed = Table.notify_height_changed :=
  ⟨rfl, rfl⟩

/-- Witness for C1 at the 2×3 example, row 0, height 100. -/
theorem row_height_set_aggregate_witness :
    0 < exState.tbl.tr_lst.length
    ∧ (Row.height_set exState 0 100).graphic_frame.height
        = ((Row.height_set exState 0 100).tbl.tr_lst.map Tr.h).sum :=
  ⟨by decide, (row_height_set_aggregate exState 0 100 (by decide)).1⟩

/-- C2: immediately after `columns[j].width = w` returns, the owning graphic
frame's width equals the sum of the widths of all columns, via the synchronous
column-to-collection-to-table notification chain. -/
theorem col_width_set_aggregate (s : TableState) (j : Nat) (wv : Int)
    (hj : j < s.tbl.gridCol_lst.length) :
    (Column.width_set s j wv).graphic_frame.width
      = ((Column.width_set s j wv).tbl.gridCol_lst.map GridCol.w).sum
    ∧ ColumnCollection.notify_width_changed = Table.notify_width_changed :=
  ⟨rfl, rfl⟩

/-- Witness for C2 at the 2×3 example, column 2, width 30. -/
theorem col_width_set_aggregate_witness :
    2 < exState.tbl.gridCol_lst.length
    ∧ (Column.width_set exState 2 30).graphic_frame.width
        = ((Column.width_set exState 2 30).tbl.gridCol_lst.map GridCol.w).sum :=
  ⟨by decide, (col_width_set_aggregate exState 2 30 (by decide)).1⟩

/-- C9: `rows[i].height = v` writes exactly row `i`'s height and the graphic
frame's height: row `i` keeps its cells, every other row, every column, every
table flag and the frame's width are unchanged, and the frame's height is
written unconditionally (its write counter always increases, even when `v`
equals the previous height) with the sum of the new row heights. -/
theorem row_height_set_frame (s : TableState) (i : Nat) (v : Int) :
    (∀ tr, listNth s.tbl.tr_lst i = some tr →
        listNth (Row.height_set s i v).tbl.tr_lst i = some { tr with h := v })
    ∧ (∀ j, j ≠ i →
        listNth (Row.height_set s i v).tbl.tr_lst j = listNth s.tbl.tr_lst j)
    ∧ (Row.height_set s i v).tbl.gridCol_lst = s.tbl.gridCol_lst
    ∧ (Row.height_set s i v).tbl.firstCol = s.tbl.firstCol
    ∧ (Row.height_set s i v).tbl.firstRow = s.tbl.firstRow
    ∧ (Row.height_set s i v).tbl.lastCol = s.tbl.lastCol
    ∧ (Row.height_set s i v).tbl.lastRow = s.tbl.lastRow
    ∧ (Row.height_set s i v).tbl.bandRow = s.tbl.bandRow
    ∧ (Row.height_set s i v).tbl.bandCol = s.tbl.bandCol
    ∧ (Row.height_set s i v).graphic_frame.width = s.graphic_frame.width
    ∧ (Row.height_set s i v).graphic_frame.widthWrites
        = s.graphic_frame.widthWrites
    ∧ (Row.height_set s i v).graphic_frame.heightWrites
        = s.graphic_frame.heightWrites + 1
    ∧ (Row.height_set s i v).graphic_frame.height
        = ((Row.height_set s i v).tbl.tr_lst.map Tr.h).sum := by
  refine ⟨?_, ?_, rfl, rfl, rfl, rfl, rfl, rfl, rfl, rfl, rfl, rfl, rfl⟩
  · intro tr htr
    show listNth (listModify s.tbl.tr_lst i (fun t => { t with h := v })) i = _
    rw [listNth_listModify_self, htr]
    rfl
  · intro j hj
    show listNth (listModify s.tbl.tr_lst i (fun t => { t with h := v })) j = _
    exact listNth_listModify_other s.tbl.tr_lst i j _ hj

/-- Witness for C9 at the 2×3 example: setting row 0's height to its current
value 1 leaves row 1 alone and still bumps the frame's height write count. -/
theorem row_height_set_frame_witness :
    listNth (Row.height_set exState 0 1).tbl.tr_lst 1 = listNth exState.tbl.tr_lst 1
    ∧ listNth (Row.height_set exState 0 1).tbl.tr_lst 0 = some { exRow1 with h := 1 }
    ∧ (Row.height_set exState 0 1).graphic_frame.heightWrites
        = exState.graphic_frame.heightWrites + 1 := by
  refine ⟨(row_height_set_frame exState 0 1).2.1 1 (by decide),
    (row_height_set_frame exState 0 1).1 exRow1 (by decide), ?_⟩
  exact (row_height_set_frame exState 0 1).2.2.2.2.2.2.2.2.2.2.2.1

/-- The five dimension assignments of the end-to-end scenario: row heights
100 and 200, column widths 10, 20 and 30. -/
def ops2x3 : List TableOp :=
  [TableOp.setH 0 100, TableOp.setH 1 200,
   TableOp.setW 0 10, TableOp.setW 1 20, TableOp.setW 2 30]

theorem listModify_comm {α : Type} (f g : α → α) :
    ∀ (l : List α) (i j : Nat), i ≠ j →
      listModify (listModify l i f) j g = listModify (listModify l j g) i f := by
  intro l
  induction l with
  | nil => intro i j _; rfl
  | cons a t ih =>
    intro i j hij
    cases i with
    | zero =>
      cases j with
      | zero => exact absurd rfl hij
      | succ m => rfl
    | succ n =>
      cases j with
      | zero => rfl
      | succ m =>
        simpa [listModify] using ih n m (fun hc => hij (by rw [hc]))

theorem row_height_set_comm (s : TableState) (i j : Nat) (a b : Int) (hij : i ≠ j) :
    Row.height_set (Row.height_set s i a) j b
      = Row.height_set (Row.height_set s j b) i a := by
  simp only [Row.height_set, RowCollection.notify_height_changed,
    Table.notify_height_changed]
  rw [listModify_comm (fun t => { t with h := a }) (fun t => { t with h := b })
    s.tbl.tr_lst i j hij]

theorem col_width_set_comm (s : TableState) (i j : Nat) (a b : Int) (hij : i ≠ j) :
    Column.width_set (Column.width_set s i a) j b
      = Column.width_set (Column.width_set s j b) i a := by
  simp only [Column.width_set, ColumnCollection.notify_width_changed,
    Table.notify_width_changed]
  rw [listModify_comm (fun c => { c with w := a }) (fun c => { c with w := b })
    s.tbl.gridCol_lst i j hij]

theorem row_col_set_comm (s : TableState) (i j : Nat) (a b : Int) :
    Column.width_set (Row.height_set s i a) j b
      = Row.height_set (Column.width_set s j b) i a :=
  rfl

/-- Two assignments commute unless they target the same row or the same
column slot. -/
def TableOp.indepB : TableOp → TableOp → Bool
  | TableOp.setH i _, TableOp.setH j _ => i != j
  | TableOp.setW i _, TableOp.setW j _ => i != j
  | _, _ => true

theorem applyOp_comm (x y : TableOp) (hxy : x = y ∨ TableOp.indepB x y = true) :
    ∀ z : TableState, applyOp (applyOp z x) y = applyOp (applyOp z y) x := by
  intro z
  rcases hxy with heq | hind
  · rw [heq]
  · cases x with
    | setH i a =>
      cases y with
      | setH j b =>
        exact row_height_set_comm z i j a b (by simpa [TableOp.indepB] using hind)
      | setW j b => exact row_col_set_comm z i j a b
    | setW i a =>
      cases y with
      | setH j b => exact (row_col_set_comm z j i b a).symm
      | setW j b =>
        exact col_width_set_comm z i j a b (by simpa [TableOp.indepB] using hind)

/-- C6: on the 2×3 example table, performing the five assignments (row
heights 100 and 200, column widths 10, 20, 30) through the proxy setters in
any order yields aggregate height exactly 300 and aggregate width exactly 60,
and the same final state as any other order. -/
theorem table_2x3_any_order (p : List TableOp) (hp : p.Perm ops2x3) :
    (applyOps exState p).graphic_frame.height = 300
    ∧ (applyOps exState p).graphic_frame.width = 60
    ∧ applyOps exState p = applyOps exState ops2x3 := by
  have hfold : applyOps exState p = applyOps exState ops2x3 := by
    unfold applyOps
    refine hp.foldl_eq' ?_ exState
    intro x hx y hy z
    rw [hp.mem_iff] at hx hy
    refine applyOp_comm x y ?_ z
    fin_cases hx <;> fin_cases hy <;> decide
  refine ⟨?_, ?_, hfold⟩ <;> rw [hfold] <;> decide

/-- Witness for C6 at the identity order. -/
theorem table_2x3_any_order_witness :
    (applyOps exState ops2x3).graphic_frame.height = 300
    ∧ (applyOps exState ops2x3).graphic_frame.width = 60 :=
  ⟨(table_2x3_any_order ops2x3 (List.Perm.refl ops2x3)).1,
   (table_2x3_any_order ops2x3 (List.Perm.refl ops2x3)).2.1⟩

/-- C3: a margin setter raises the `TypeError` naming the assigned value
exactly when the value is neither an integer nor `None`; every integer
(including zero and negatives) and `None` are accepted and stored; on a
raised error no assignment to the cell element happens (the setter produces
only the error, no updated element). -/
theorem margin_set_validation (tc : Tc) (v : PyVal) :
    ((is_integer v = false ∧ v ≠ PyVal.noneVal) ↔
        validate_margin_value v = some (marginErrorMsg v))
    ∧ (∀ n : Int, validate_margin_value (PyVal.intVal n) = none)
    ∧ (validate_margin_value PyVal.noneVal = none)
    ∧ (∀ msg, validate_margin_value v = some msg → msg = marginErrorMsg v)
    ∧ (∀ msg, validate_margin_value v = some msg →
        Cell.margin_left_set tc v = Except.error msg
        ∧ Cell.margin_right_set tc v = Except.error msg
        ∧ Cell.margin_top_set tc v = Except.error msg
        ∧ Cell.margin_bottom_set tc v = Except.error msg)
    ∧ (validate_margin_value v = none →
        Cell.margin_left_set tc v = Except.ok { tc with marL := marginStore v }
        ∧ Cell.margin_right_set tc v = Except.ok { tc with marR := marginStore v }
        ∧ Cell.margin_top_set tc v = Except.ok { tc with marT := marginStore v }
        ∧ Cell.margin_bottom_set tc v = Except.ok { tc with marB := marginStore v }) := by
  refine ⟨?_, fun n => rfl, rfl, ?_, ?_, ?_⟩
  · constructor
    · intro hvv
      rcases v with n | _ | t | t
      · exact absurd hvv.1 (by simp [is_integer])
      · exact absurd rfl hvv.2
      · rfl
      · rfl
    · intro hvv
      rcases v with n | _ | t | t
      · exact Option.noConfusion hvv
      · exact Option.noConfusion hvv
      · exact ⟨rfl, fun hc => PyVal.noConfusion hc⟩
      · exact ⟨rfl, fun hc => PyVal.noConfusion hc⟩
  · intro msg hmsg
    rcases v with n | _ | t | t
    · exact Option.noConfusion hmsg
    · exact Option.noConfusion hmsg
    · exact (Option.some.inj hmsg).symm
    · exact (Option.some.inj hmsg).symm
  · intro msg hmsg
    refine ⟨?_, ?_, ?_, ?_⟩ <;>
      simp [Cell.margin_left_set, Cell.margin_right_set, Cell.margin_top_set,
        Cell.margin_bottom_set, hmsg]
  · intro hnone
    refine ⟨?_, ?_, ?_, ?_⟩ <;>
      simp [Cell.margin_left_set, Cell.margin_right_set, Cell.margin_top_set,
        Cell.margin_bottom_set, hnone]

/-- Witness for C3: 3.5 is rejected by all four setters with a message naming
it, while 0, -5 and `None` are accepted. -/
theorem margin_set_validation_witness :
    validate_margin_value (PyVal.floatVal "3.5")
      = some (marginErrorMsg (PyVal.floatVal "3.5"))
    ∧ Cell.margin_left_set (exTc 0) (PyVal.floatVal "3.5")
      = Except.error (marginErrorMsg (PyVal.floatVal "3.5"))
    ∧ Cell.margin_top_set (exTc 0) (PyVal.intVal 0)
      = Except.ok { exTc 0 with marT := some 0 }
    ∧ Cell.margin_right_set (exTc 0) (PyVal.intVal (-5))
      = Except.ok { exTc 0 with marR := some (-5) }
    ∧ Cell.margin_bottom_set (exTc 0) PyVal.noneVal
      = Except.ok { exTc 0 with marB := none } := by
  have h1 := (margin_set_validation (exTc 0) (PyVal.floatVal "3.5")).1.mp
    (by constructor <;> decide)
  refine ⟨h1,
    ((margin_set_validation (exTc 0) (PyVal.floatVal "3.5")).2.2.2.2.1 _ h1).1,
    ((margin_set_validation (exTc 0) (PyVal.intVal 0)).2.2.2.2.2 (by decide)).2.2.1,
    ((margin_set_validation (exTc 0) (PyVal.intVal (-5))).2.2.2.2.2 (by decide)).2.1,
    ((margin_set_validation (exTc 0) PyVal.noneVal).2.2.2.2.2 (by decide)).2.2.2⟩

/-- C5: two cell proxies compare equal exactly when they refer to the same
underlying `a:tc` element (independent of which proxy instance they are),
`!=` is the exact negation of `==` on cell pairs, two proxies separately
constructed by `Table.cell` for the same coordinate compare equal, and
proxies resolving to distinct elements compare unequal. -/
theorem cell_eq_same_element :
    (∀ a b : CellProxy,
        Cell.eq a (PyOperand.cellOp b) = true ↔ a.tc.id = b.tc.id)
    ∧ (∀ a b : CellProxy,
        Cell.ne a (PyOperand.cellOp b) = !(Cell.eq a (PyOperand.cellOp b)))
    ∧ (∀ (s : TableState) (r c : Nat) (p q : CellProxy),
        Table.cell s r c = some p → Table.cell s r c = some q →
        Cell.eq p (PyOperand.cellOp q) = true)
    ∧ (∀ (s : TableState) (r c r2 c2 : Nat) (p q : CellProxy),
        Table.cell s r c = some p → Table.cell s r2 c2 = some q →
        p.tc.id ≠ q.tc.id → Cell.eq p (PyOperand.cellOp q) = false) := by
  refine ⟨?_, ?_, ?_, ?_⟩
  · intro a b
    simp [Cell.eq]
  · intro a b
    simp [Cell.eq, Cell.ne]
  · intro s r c p q hp hq
    rw [hp] at hq
    cases Option.some.inj hq
    simp [Cell.eq]
  · intro s r c r2 c2 p q _ _ hne
    simpa [Cell.eq] using hne

/-- Witness for C5: `table.cell(1,2)` equals a second construction of
`table.cell(1,2)` and is unequal to `table.cell(1,1)` on the example
table. -/
theorem cell_eq_same_element_witness :
    Table.cell exState 1 2 = some { tc := exTc 5 }
    ∧ Table.cell exState 1 1 = some { tc := exTc 4 }
    ∧ Cell.eq { tc := exTc 5 } (PyOperand.cellOp { tc := exTc 5 }) = true
    ∧ Cell.eq { tc := exTc 5 } (PyOperand.cellOp { tc := exTc 4 }) = false := by
  refine ⟨by decide, by decide, ?_, ?_⟩
  · exact cell_eq_same_element.2.2.1 exState 1 2 { tc := exTc 5 } { tc := exTc 5 }
      (by decide) (by decide)
  · exact cell_eq_same_element.2.2.2 exState 1 2 1 1 { tc := exTc 5 } { tc := exTc 4 }
      (by decide) (by decide) (by decide)

/-- C10: comparing a cell proxy with any non-cell value returns `False` for
`==` and `True` for `!=`, without raising (both comparisons are total
functions of the operand). -/
theorem cell_eq_non_cell (c : CellProxy) (x : PyOperand)
    (hx : ∀ o : CellProxy, x ≠ PyOperand.cellOp o) :
    Cell.eq c x = false ∧ Cell.ne c x = true := by
  cases x with
  | cellOp o => exact absurd rfl (hx o)
  | intOp n => exact ⟨rfl, rfl⟩
  | strOp t => exact ⟨rfl, rfl⟩
  | noneOp => exact ⟨rfl, rfl⟩

/-- Witness for C10: comparing a cell with the integer 3. -/
theorem cell_eq_non_cell_witness :
    Cell.eq { tc := exTc 0 } (PyOperand.intOp 3) = false
    ∧ Cell.ne { tc := exTc 0 } (PyOperand.intOp 3) = true :=
  cell_eq_non_cell { tc := exTc 0 } (PyOperand.intOp 3)
    (fun o h => PyOperand.noConfusion h)

/-- C7: `Table.rows` / `Table.columns` construct their collection on first
access only (caching it on the instance) and return the identical cached
object, with the instance unchanged, on every later access. -/
theorem table_collections_cached (t : CachedTable) :
    Table.rows_access ((Table.rows_access t).2)
        = ((Table.rows_access t).1, (Table.rows_access t).2)
    ∧ Table.columns_access ((Table.columns_access t).2)
        = ((Table.columns_access t).1, (Table.columns_access t).2)
    ∧ (t.rowsCache = none →
        (Table.rows_access t).2.rowsCache = some (Table.rows_access t).1)
    ∧ (∀ c, t.rowsCache = some c → Table.rows_access t = (c, t))
    ∧ (t.columnsCache = none →
        (Table.columns_access t).2.columnsCache = some (Table.columns_access t).1)
    ∧ (∀ c, t.columnsCache = some c → Table.columns_access t = (c, t)) := by
  rcases t with ⟨st, rc, cc, nid⟩
  rcases rc with _ | c1 <;> rcases cc with _ | c2 <;>
    simp [Table.rows_access, Table.columns_access]

/-- Witness for C7 on a fresh example table: the first access caches, the
second returns the identical object and leaves the instance unchanged. -/
theorem table_collections_cached_witness :
    exCached.rowsCache = none
    ∧ (Table.rows_access exCached).2.rowsCache = some (Table.rows_access exCached).1
    ∧ Table.rows_access ((Table.rows_access exCached).2)
        = ((Table.rows_access exCached).1, (Table.rows_access exCached).2) :=
  ⟨rfl, (table_collections_cached exCached).2.2.1 rfl,
    (table_collections_cached exCached).1⟩

end PPTX
